import Mathlib

/-!
# NRD wrapper entry points

A shallow embedding of the two `Wrapper.cpp` translation units of the
denoiser library:

* `src/Source/Wrapper.cpp` (2022), embedded in namespace `nrd.v2022`;
* `src/NRD/Source/Wrapper.cpp` (2020), embedded in namespace `nrd.v2020`.

Enumerations are embedded as their `uint32_t` ordinals, `const char*` as an
optional string (`none` is the null pointer), by-reference parameters as
values passed in and handed back, and the heap as an explicit state.
-/

namespace nrd

/-! ## Shared C++ vocabulary -/

/-- Aggregate initialisation of a `std::array<T, N>` from a braced list: the
listed initialisers in order, the remaining elements value-initialised.  (A
list longer than `N` is rejected by the compiler and does not arise.) -/
def arrayInit {α : Type} (N : Nat) (valueInit : α) (inits : List α) : List α :=
  inits ++ List.replicate (N - inits.length) valueInit

/-- A `const char*`: `none` is the null pointer. -/
abbrev CString := Option String

/-- An enumeration value of `nrd::Method`, as its `uint32_t` ordinal. -/
abbrev Method := Nat

/-- An enumeration value of `nrd::ResourceType`, as its `uint32_t` ordinal. -/
abbrev ResourceType := Nat

/-- The conversion `(uint32_t)` applied to a `size_t`. -/
def toUInt32 (n : Nat) : Nat := n % 2 ^ 32

/-- Modelled from the spec: the result codes of `nrd::Result` (`NRD.h` is not
among the sources): "Success; InvalidArgument; OutOfMemory/OutOfPool;
Unsupported; InternalError".  The wrappers only ever compare a code with
`SUCCESS`. -/
inductive Result where
  | SUCCESS
  | INVALID_ARGUMENT
  | OUT_OF_MEMORY
  | OUT_OF_POOL
  | UNSUPPORTED
  | INTERNAL_ERROR
deriving DecidableEq, Repr

/-- Modelled from the spec: one of the routines an allocator interface points
to, either a routine of the library's default global allocator or a callback
of the caller (`NRD.h` is not among the sources). -/
inductive AllocatorRoutine where
  | global
  | user (id : Nat)
deriving DecidableEq, Repr

/-- Modelled from the spec: `nrd::MemoryAllocatorInterface`, "three function
pointers: allocate, reallocate, free, each receiving a user context". -/
structure MemoryAllocatorInterface where
  Allocate : AllocatorRoutine
  Reallocate : AllocatorRoutine
  Free : AllocatorRoutine
  userArg : Nat
deriving DecidableEq, Repr

/-- Modelled from the spec: the "default global allocator" that is used when
the creation description supplies none. -/
def defaultMemoryAllocatorInterface : MemoryAllocatorInterface :=
  { Allocate := AllocatorRoutine.global
    Reallocate := AllocatorRoutine.global
    Free := AllocatorRoutine.global
    userArg := 0 }

/-- Modelled from the spec: one requested "(Method, user identifier)" pair
of a creation description. -/
structure MethodDesc where
  method : Method
  identifier : Nat
deriving DecidableEq, Repr

/-- Modelled from the spec: `nrd::DenoiserCreationDesc`, the "requested set
of (Method, user identifier) pairs, frame dimensions, and an optional custom
memory allocator interface"; `none` is a description that supplies no
allocator. -/
structure DenoiserCreationDesc where
  memoryAllocatorInterface : Option MemoryAllocatorInterface
  requestedMethods : List MethodDesc
  width : Nat
  height : Nat
deriving DecidableEq, Repr

/-- Modelled from the spec: the helper `CheckAndSetDefaultAllocator`, which
is not among the sources: "If no allocator is supplied, a default global
allocator is used."  It works in place on the interface it is given, here it
hands the interface back. -/
def CheckAndSetDefaultAllocator (memoryAllocatorInterface : Option MemoryAllocatorInterface) :
    Option MemoryAllocatorInterface :=
  match memoryAllocatorInterface with
  | none => some defaultMemoryAllocatorInterface
  | some supplied => some supplied

/-- The class `StdAllocator<uint8_t>`: an allocator object built from a
memory allocator interface, through which it allocates and frees. -/
structure StdAllocator where
  m_Interface : Option MemoryAllocatorInterface
deriving DecidableEq, Repr

/-- Modelled from the spec: `nrd::MethodSettings`, the "method-specific
tuning blob, opaque to the core except for its declared byte size/shape",
that the `const void* methodSettings` argument points to. -/
structure MethodSettings where
  declaredSize : Nat
  bytes : List Nat
deriving DecidableEq, Repr

/-- Modelled from the spec: `nrd::CommonSettings`, the per-frame values
shared by all methods, of which the frame index and the reset flag are kept. -/
structure CommonSettings where
  frameIndex : Nat
  reset : Bool
deriving DecidableEq, Repr

/-- Modelled from the spec: `nrd::DispatchDesc`, one compute invocation:
pipeline identifier, thread-group count, resource bindings (resource and
write flag) and constant-buffer payload. -/
structure DispatchDesc where
  pipelineIndex : Nat
  gridWidth : Nat
  gridHeight : Nat
  resources : List (ResourceType × Bool)
  constantBufferData : List Nat
deriving DecidableEq, Repr

/-- Modelled from the spec: `nrd::DenoiserDesc`, the "aggregate resource/pool
requirements for the host to allocate backing textures". -/
structure DenoiserDesc where
  transientPoolSize : Nat
  permanentPoolSize : Nat
deriving DecidableEq, Repr

/-- The two output parameters of `GetComputeDispatches`,
`const DispatchDesc*& dispatchDescs` (as the list it points to) and
`uint32_t& dispatchDescNum`. -/
structure DispatchOut where
  dispatchDescs : List DispatchDesc
  dispatchDescNum : Nat
deriving DecidableEq, Repr

/-- The member functions of the class `DenoiserImpl` of `DenoiserImpl.h`,
which is not among the sources: they are parameters of the embedding, acting
on the implementation's own state `σ`.  `construct` is the state a
constructor leaves; an output parameter is passed in and handed back. -/
structure DenoiserImplMembers (σ : Type) where
  construct : σ
  Create : DenoiserCreationDesc → σ → Result × σ
  GetDesc : σ → DenoiserDesc
  SetMethodSettings : Method → MethodSettings → σ → Result × σ
  GetComputeDispatches : CommonSettings → DispatchOut → σ → Result × DispatchOut × σ

/-- A call by which a wrapper obtains or gives back the storage of a
`DenoiserImpl` object: through a `StdAllocator` (2022) or through the global
`new` and `delete` (2020).  What the implementation allocates for itself is
part of its own state `σ` and is not recorded here. -/
inductive HeapEvent where
  | allocate (allocator : StdAllocator) (address : Nat)
  | deallocate (allocator : StdAllocator) (address : Nat)
  | operatorNew (address : Nat)
  | operatorDelete (address : Nat)
deriving DecidableEq, Repr

/-- The heap: the live objects by address, the address the next allocation
returns, and the allocation and release calls made so far, oldest first. -/
structure Heap (Obj : Type) where
  nextAddress : Nat
  objects : List (Nat × Obj)
  events : List HeapEvent

/-- The object at an address, `none` where no live object is there. -/
def Heap.load {Obj : Type} (heap : Heap Obj) (address : Nat) : Option Obj :=
  heap.objects.lookup address

/-- Allocate storage, construct `object` in it and record the call. -/
def Heap.place {Obj : Type} (heap : Heap Obj) (object : Obj) (event : Nat → HeapEvent) :
    Nat × Heap Obj :=
  (heap.nextAddress,
    { nextAddress := heap.nextAddress + 1
      objects := (heap.nextAddress, object) :: heap.objects
      events := heap.events ++ [event heap.nextAddress] })

/-- Overwrite the first binding of `address`. -/
def storeAt {Obj : Type} (address : Nat) (object : Obj) : List (Nat × Obj) → List (Nat × Obj)
  | [] => []
  | (key, old) :: rest =>
      if key = address then (key, object) :: rest else (key, old) :: storeAt address object rest

/-- The heap after a member function left `object` at `address`. -/
def Heap.store {Obj : Type} (heap : Heap Obj) (address : Nat) (object : Obj) : Heap Obj :=
  { heap with objects := storeAt address object heap.objects }

/-- Destroy the object at `address`, free its storage and record the call. -/
def Heap.release {Obj : Type} (heap : Heap Obj) (address : Nat) (event : HeapEvent) : Heap Obj :=
  { heap with
    objects := heap.objects.eraseP (fun entry => entry.1 == address)
    events := heap.events ++ [event] }

/-- What `CreateDenoiser` leaves behind: the returned code, the caller's
creation description and handle variable after the call, and the heap. -/
structure CreateOutcome (Obj : Type) where
  result : Result
  denoiserCreationDesc : DenoiserCreationDesc
  denoiser : Nat
  heap : Heap Obj

namespace v2022

/-! ## `src/Source/Wrapper.cpp`: enumerators of `NRD.h` -/

/-- Modelled from the spec: the enumerators of `nrd::Method` declared in
`NRD.h`, which is not among the sources.  They are numbered in the order in
which the initialiser of `g_NrdSupportedMethods` names them. -/
def Method.REBLUR_DIFFUSE : Method := 0
/-- Modelled from the spec: enumerator of `nrd::Method` (`NRD.h`). -/
def Method.REBLUR_DIFFUSE_OCCLUSION : Method := 1
/-- Modelled from the spec: enumerator of `nrd::Method` (`NRD.h`). -/
def Method.REBLUR_SPECULAR : Method := 2
/-- Modelled from the spec: enumerator of `nrd::Method` (`NRD.h`). -/
def Method.REBLUR_SPECULAR_OCCLUSION : Method := 3
/-- Modelled from the spec: enumerator of `nrd::Method` (`NRD.h`). -/
def Method.REBLUR_DIFFUSE_SPECULAR : Method := 4
/-- Modelled from the spec: enumerator of `nrd::Method` (`NRD.h`). -/
def Method.REBLUR_DIFFUSE_SPECULAR_OCCLUSION : Method := 5
/-- Modelled from the spec: enumerator of `nrd::Method` (`NRD.h`). -/
def Method.REBLUR_DIFFUSE_DIRECTIONAL_OCCLUSION : Method := 6
/-- Modelled from the spec: enumerator of `nrd::Method` (`NRD.h`). -/
def Method.SIGMA_SHADOW : Method := 7
/-- Modelled from the spec: enumerator of `nrd::Method` (`NRD.h`). -/
def Method.SIGMA_SHADOW_TRANSLUCENCY : Method := 8
/-- Modelled from the spec: enumerator of `nrd::Method` (`NRD.h`). -/
def Method.RELAX_DIFFUSE : Method := 9
/-- Modelled from the spec: enumerator of `nrd::Method` (`NRD.h`). -/
def Method.RELAX_SPECULAR : Method := 10
/-- Modelled from the spec: enumerator of `nrd::Method` (`NRD.h`). -/
def Method.RELAX_DIFFUSE_SPECULAR : Method := 11
/-- Modelled from the spec: enumerator of `nrd::Method` (`NRD.h`). -/
def Method.REFERENCE : Method := 12
/-- Modelled from the spec: enumerator of `nrd::Method` (`NRD.h`). -/
def Method.SPECULAR_REFLECTION_MV : Method := 13
/-- Modelled from the spec: enumerator of `nrd::Method` (`NRD.h`). -/
def Method.SPECULAR_DELTA_MV : Method := 14
/-- Modelled from the spec: `nrd::Method::MAX_NUM` of `NRD.h` (not among the
sources), the enumerator that closes the enumeration, right after
`SPECULAR_DELTA_MV`. -/
def Method.MAX_NUM : Method := 15

/-- Modelled from the spec: `nrd::ResourceType::MAX_NUM` of `NRD.h` (not
among the sources): the resource enumeration is the 26 named inputs and
outputs plus the two pool markers, and its ordinals index the name table
with no gaps. -/
def ResourceType.MAX_NUM : ResourceType := 28

/-! ## `src/Source/Wrapper.cpp`: the static tables -/

/-- The braced initialiser of `g_NrdSupportedMethods`, lines 23 to 37. -/
def g_NrdSupportedMethods_inits : List Method :=
  [ Method.REBLUR_DIFFUSE,
    Method.REBLUR_DIFFUSE_OCCLUSION,
    Method.REBLUR_SPECULAR,
    Method.REBLUR_SPECULAR_OCCLUSION,
    Method.REBLUR_DIFFUSE_SPECULAR,
    Method.REBLUR_DIFFUSE_SPECULAR_OCCLUSION,
    Method.REBLUR_DIFFUSE_DIRECTIONAL_OCCLUSION,
    Method.SIGMA_SHADOW,
    Method.SIGMA_SHADOW_TRANSLUCENCY,
    Method.RELAX_DIFFUSE,
    Method.RELAX_SPECULAR,
    Method.RELAX_DIFFUSE_SPECULAR,
    Method.REFERENCE,
    Method.SPECULAR_REFLECTION_MV,
    Method.SPECULAR_DELTA_MV ]

/-- The table `std::array<nrd::Method, (size_t)nrd::Method::MAX_NUM>
g_NrdSupportedMethods`; a value-initialised `Method` is ordinal `0`. -/
def g_NrdSupportedMethods : List Method :=
  arrayInit Method.MAX_NUM 0 g_NrdSupportedMethods_inits

/-- The values the build supplies to `g_NrdLibraryDesc`: the `VERSION_*`
macros of `Version.h` and whether `NRD_USE_OCT_NORMAL_ENCODING` is defined. -/
structure BuildConfig where
  VERSION_MAJOR : Nat
  VERSION_MINOR : Nat
  VERSION_BUILD : Nat
  NRD_USE_OCT_NORMAL_ENCODING : Bool
deriving DecidableEq, Repr

/-- The struct `nrd::LibraryDesc`, with the fields in the order in which
`g_NrdLibraryDesc` initialises them. -/
structure LibraryDesc where
  spirvBindingOffsets : List Nat
  supportedMethods : List Method
  supportedMethodNum : Nat
  versionMajor : Nat
  versionMinor : Nat
  versionBuild : Nat
  maxSupportedMaterialBitNum : Nat
  isCompiledWithOctPackNormalEncoding : Bool
deriving DecidableEq, Repr

/-- The constant `g_NrdLibraryDesc`, lines 40 to 53. -/
def g_NrdLibraryDesc (cfg : BuildConfig) : LibraryDesc :=
  { spirvBindingOffsets := [100, 200, 300, 400]
    supportedMethods := g_NrdSupportedMethods
    supportedMethodNum := toUInt32 g_NrdSupportedMethods.length
    versionMajor := cfg.VERSION_MAJOR
    versionMinor := cfg.VERSION_MINOR
    versionBuild := cfg.VERSION_BUILD
    maxSupportedMaterialBitNum := if cfg.NRD_USE_OCT_NORMAL_ENCODING then 2 else 0
    isCompiledWithOctPackNormalEncoding := cfg.NRD_USE_OCT_NORMAL_ENCODING }

/-- The braced initialiser of `g_NrdResourceTypeNames`, lines 57 to 86. -/
def g_NrdResourceTypeNames_inits : List CString :=
  [ some "IN_MV ",
    some "IN_NORMAL_ROUGHNESS ",
    some "IN_VIEWZ ",
    some "IN_DIFF_RADIANCE_HITDIST ",
    some "IN_SPEC_RADIANCE_HITDIST ",
    some "IN_DIFF_HITDIST ",
    some "IN_SPEC_HITDIST ",
    some "IN_DIFF_DIRECTION_HITDIST ",
    some "IN_DIFF_DIRECTION_PDF ",
    some "IN_SPEC_DIRECTION_PDF ",
    some "IN_DIFF_CONFIDENCE ",
    some "IN_SPEC_CONFIDENCE ",
    some "IN_SHADOWDATA ",
    some "IN_SHADOW_TRANSLUCENCY ",
    some "IN_RADIANCE ",
    some "IN_DELTA_PRIMARY_POS ",
    some "IN_DELTA_SECONDARY_POS ",

    some "OUT_DIFF_RADIANCE_HITDIST ",
    some "OUT_SPEC_RADIANCE_HITDIST ",
    some "OUT_DIFF_HITDIST ",
    some "OUT_SPEC_HITDIST ",
    some "OUT_DIFF_DIRECTION_HITDIST ",
    some "OUT_SHADOW_TRANSLUCENCY ",
    some "OUT_RADIANCE ",
    some "OUT_REFLECTION_MV ",
    some "OUT_DELTA_MV ",

    some "TRANSIENT_POOL",
    some "PERMANENT_POOL" ]

/-- The table `std::array<const char*, (size_t)nrd::ResourceType::MAX_NUM>
g_NrdResourceTypeNames`; a value-initialised `const char*` is null. -/
def g_NrdResourceTypeNames : List CString :=
  arrayInit ResourceType.MAX_NUM none g_NrdResourceTypeNames_inits

/-- The function `nrd::GetLibraryDesc`, lines 89 to 92. -/
def GetLibraryDesc (cfg : BuildConfig) : LibraryDesc :=
  g_NrdLibraryDesc cfg

/-- The function `nrd::GetResourceTypeString`, lines 135 to 138: the
unchecked subscript `g_NrdResourceTypeNames[(size_t)resourceType]`.  The
result is `none` where the subscript is outside the array, for which
`std::array::operator[]` defines no behaviour. -/
def GetResourceTypeString (resourceType : ResourceType) : Option CString :=
  g_NrdResourceTypeNames[resourceType]?

/-! ## `src/Source/Wrapper.cpp`: the entry points -/

/-- Modelled from the spec: the object layout of the class `DenoiserImpl` of
`DenoiserImpl.h` (not among the sources): the allocator its constructor is
given, which `GetStdAllocator` hands out, and the implementation's own
state, on which the other member functions act. -/
structure DenoiserImpl (σ : Type) where
  m_StdAllocator : StdAllocator
  core : σ

/-- Modelled from the spec: the accessor `DenoiserImpl::GetStdAllocator`. -/
def DenoiserImpl.GetStdAllocator {σ : Type} (self : DenoiserImpl σ) : StdAllocator :=
  self.m_StdAllocator

/-- Modelled from the spec: the constructor `DenoiserImpl(const StdAllocator&)`
that `Allocate<DenoiserImpl>(memoryAllocator, memoryAllocator)` invokes: the
object keeps the allocator it is given. -/
def DenoiserImpl.construct {σ : Type} (impl : DenoiserImplMembers σ)
    (stdAllocator : StdAllocator) : DenoiserImpl σ :=
  { m_StdAllocator := stdAllocator, core := impl.construct }

/-- The member call `implementation->Create(desc)`: the absent member
function `impl.Create` on the implementation's state; the stored allocator
stays. -/
def DenoiserImpl.Create {σ : Type} (impl : DenoiserImplMembers σ) (self : DenoiserImpl σ)
    (denoiserCreationDesc : DenoiserCreationDesc) : Result × DenoiserImpl σ :=
  ((impl.Create denoiserCreationDesc self.core).1,
    { self with core := (impl.Create denoiserCreationDesc self.core).2 })

/-- The member call `GetDesc()`. -/
def DenoiserImpl.GetDesc {σ : Type} (impl : DenoiserImplMembers σ) (self : DenoiserImpl σ) :
    DenoiserDesc :=
  impl.GetDesc self.core

/-- The member call `SetMethodSettings(method, methodSettings)`: the absent
member function `impl.SetMethodSettings` on the implementation's state. -/
def DenoiserImpl.SetMethodSettings {σ : Type} (impl : DenoiserImplMembers σ)
    (self : DenoiserImpl σ) (method : Method) (methodSettings : MethodSettings) :
    Result × DenoiserImpl σ :=
  ((impl.SetMethodSettings method methodSettings self.core).1,
    { self with core := (impl.SetMethodSettings method methodSettings self.core).2 })

/-- The member call `GetComputeDispatches(commonSettings, dispatchDescs,
dispatchDescNum)`. -/
def DenoiserImpl.GetComputeDispatches {σ : Type} (impl : DenoiserImplMembers σ)
    (self : DenoiserImpl σ) (commonSettings : CommonSettings) (out : DispatchOut) :
    Result × DispatchOut × DenoiserImpl σ :=
  ((impl.GetComputeDispatches commonSettings out self.core).1,
    (impl.GetComputeDispatches commonSettings out self.core).2.1,
    { self with core := (impl.GetComputeDispatches commonSettings out self.core).2.2 })

/-- The helper `Allocate<DenoiserImpl>(allocator, arg)`: storage obtained
through `allocator`, a `DenoiserImpl` constructed in it from `arg`. -/
def Allocate {σ : Type} (impl : DenoiserImplMembers σ) (allocator : StdAllocator)
    (arg : StdAllocator) (heap : Heap (DenoiserImpl σ)) : Nat × Heap (DenoiserImpl σ) :=
  heap.place (DenoiserImpl.construct impl arg) (HeapEvent.allocate allocator)

/-- The helper `Deallocate(allocator, object)`: the object destroyed and its
storage freed through `allocator`. -/
def Deallocate {σ : Type} (allocator : StdAllocator) (object : Nat)
    (heap : Heap (DenoiserImpl σ)) : Heap (DenoiserImpl σ) :=
  heap.release object (HeapEvent.deallocate allocator object)

/-- The local `modifiedDenoiserCreationDesc` of `CreateDenoiser` after lines
96 and 97: a copy of the caller's description, its allocator interface put
through `CheckAndSetDefaultAllocator`. -/
def modifiedDenoiserCreationDesc (denoiserCreationDesc : DenoiserCreationDesc) :
    DenoiserCreationDesc :=
  { denoiserCreationDesc with
    memoryAllocatorInterface :=
      CheckAndSetDefaultAllocator denoiserCreationDesc.memoryAllocatorInterface }

/-- The local `memoryAllocator` of `CreateDenoiser`, line 99. -/
def memoryAllocator (denoiserCreationDesc : DenoiserCreationDesc) : StdAllocator :=
  { m_Interface := (modifiedDenoiserCreationDesc denoiserCreationDesc).memoryAllocatorInterface }

/-- The function `nrd::CreateDenoiser`, lines 94 to 112.  `denoiser` is the
caller's handle variable before the call.  `implementation->Create` acts on
the object that line 101 has just constructed at `implementation`, and the
heap then holds what it leaves. -/
def CreateDenoiser {σ : Type} (impl : DenoiserImplMembers σ)
    (denoiserCreationDesc : DenoiserCreationDesc) (denoiser : Nat)
    (heap : Heap (DenoiserImpl σ)) : CreateOutcome (DenoiserImpl σ) :=
  let modifiedDenoiserCreationDesc := modifiedDenoiserCreationDesc denoiserCreationDesc
  let memoryAllocator := memoryAllocator denoiserCreationDesc
  let implementation := (Allocate impl memoryAllocator memoryAllocator heap).1
  let heap₁ := (Allocate impl memoryAllocator memoryAllocator heap).2
  let created :=
    DenoiserImpl.Create impl (DenoiserImpl.construct impl memoryAllocator)
      modifiedDenoiserCreationDesc
  let result := created.1
  let heap₂ := heap₁.store implementation created.2
  if result = Result.SUCCESS then
    { result := Result.SUCCESS
      denoiserCreationDesc := denoiserCreationDesc
      denoiser := implementation
      heap := heap₂ }
  else
    { result := result
      denoiserCreationDesc := denoiserCreationDesc
      denoiser := denoiser
      heap := Deallocate memoryAllocator implementation heap₂ }

/-- The function `nrd::GetDenoiserDesc`, lines 114 to 117. -/
def GetDenoiserDesc {σ : Type} (impl : DenoiserImplMembers σ) (denoiser : DenoiserImpl σ) :
    DenoiserDesc :=
  DenoiserImpl.GetDesc impl denoiser

/-- The function `nrd::SetMethodSettings`, lines 119 to 122. -/
def SetMethodSettings {σ : Type} (impl : DenoiserImplMembers σ) (denoiser : DenoiserImpl σ)
    (method : Method) (methodSettings : MethodSettings) : Result × DenoiserImpl σ :=
  DenoiserImpl.SetMethodSettings impl denoiser method methodSettings

/-- The function `nrd::GetComputeDispatches`, lines 124 to 127. -/
def GetComputeDispatches {σ : Type} (impl : DenoiserImplMembers σ) (denoiser : DenoiserImpl σ)
    (commonSettings : CommonSettings) (out : DispatchOut) :
    Result × DispatchOut × DenoiserImpl σ :=
  DenoiserImpl.GetComputeDispatches impl denoiser commonSettings out

/-- The function `nrd::DestroyDenoiser`, lines 129 to 133, on the object at
address `denoiser`; `none` where the reference names no live object. -/
def DestroyDenoiser {σ : Type} (denoiser : Nat) (heap : Heap (DenoiserImpl σ)) :
    Option (Heap (DenoiserImpl σ)) :=
  match heap.load denoiser with
  | none => none
  | some object =>
      let memoryAllocator := object.GetStdAllocator
      some (Deallocate memoryAllocator denoiser heap)

end v2022

namespace v2020

/-! ## `src/NRD/Source/Wrapper.cpp` -/

/-- Modelled from the spec: the enumerators of `nrd::Method` declared in the
2020 `NRD.h`, which is not among the sources, numbered in the order in which
the initialiser of `g_NrdSupportedMethods` names them. -/
def Method.DIFFUSE : Method := 0
/-- Modelled from the spec: enumerator of `nrd::Method` (2020 `NRD.h`). -/
def Method.SPECULAR : Method := 1
/-- Modelled from the spec: enumerator of `nrd::Method` (2020 `NRD.h`). -/
def Method.SHADOW : Method := 2

/-- The braced initialiser of `g_NrdSupportedMethods`, lines 21 to 23. -/
def g_NrdSupportedMethods_inits : List Method :=
  [ Method.DIFFUSE,
    Method.SPECULAR,
    Method.SHADOW ]

/-- The table `std::array<Method, 3> g_NrdSupportedMethods`. -/
def g_NrdSupportedMethods : List Method :=
  arrayInit 3 0 g_NrdSupportedMethods_inits

/-- The values the build supplies to `g_NrdLibraryDesc`: the `VERSION_*`
macros of `Version.h`. -/
structure BuildConfig where
  VERSION_MAJOR : Nat
  VERSION_MINOR : Nat
  VERSION_BUILD : Nat
deriving DecidableEq, Repr

/-- The struct `nrd::LibraryDesc`, with the fields in the order in which
`g_NrdLibraryDesc` initialises them. -/
structure LibraryDesc where
  spirvBindingOffsets : List Nat
  supportedMethods : List Method
  supportedMethodNum : Nat
  versionMajor : Nat
  versionMinor : Nat
  versionBuild : Nat
deriving DecidableEq, Repr

/-- The constant `g_NrdLibraryDesc`, lines 30 to 38. -/
def g_NrdLibraryDesc (cfg : BuildConfig) : LibraryDesc :=
  { spirvBindingOffsets := [100, 200, 300, 400]
    supportedMethods := g_NrdSupportedMethods
    supportedMethodNum := toUInt32 g_NrdSupportedMethods.length
    versionMajor := cfg.VERSION_MAJOR
    versionMinor := cfg.VERSION_MINOR
    versionBuild := cfg.VERSION_BUILD }

/-- The function `nrd::GetLibraryDesc`, lines 40 to 43. -/
def GetLibraryDesc (cfg : BuildConfig) : LibraryDesc :=
  g_NrdLibraryDesc cfg

/-- Modelled from the spec: the object layout of the 2020 class
`DenoiserImpl` (`DenoiserImpl.h` is not among the sources): it is
default-constructed and holds the implementation's own state. -/
structure DenoiserImpl (σ : Type) where
  core : σ

/-- Modelled from the spec: the default constructor that `new DenoiserImpl`
invokes. -/
def DenoiserImpl.construct {σ : Type} (impl : DenoiserImplMembers σ) : DenoiserImpl σ :=
  { core := impl.construct }

/-- The member call `denoiserImpl->Create(desc)`: the absent member function
`impl.Create` on the implementation's state. -/
def DenoiserImpl.Create {σ : Type} (impl : DenoiserImplMembers σ) (self : DenoiserImpl σ)
    (denoiserCreationDesc : DenoiserCreationDesc) : Result × DenoiserImpl σ :=
  ((impl.Create denoiserCreationDesc self.core).1,
    { core := (impl.Create denoiserCreationDesc self.core).2 })

/-- The member call `GetDesc()`. -/
def DenoiserImpl.GetDesc {σ : Type} (impl : DenoiserImplMembers σ) (self : DenoiserImpl σ) :
    DenoiserDesc :=
  impl.GetDesc self.core

/-- The member call `SetMethodSettings(method, methodSettings)`. -/
def DenoiserImpl.SetMethodSettings {σ : Type} (impl : DenoiserImplMembers σ)
    (self : DenoiserImpl σ) (method : Method) (methodSettings : MethodSettings) :
    Result × DenoiserImpl σ :=
  ((impl.SetMethodSettings method methodSettings self.core).1,
    { core := (impl.SetMethodSettings method methodSettings self.core).2 })

/-- The member call `GetComputeDispatches(commonSettings, dispatchDescs,
dispatchDescNum)`. -/
def DenoiserImpl.GetComputeDispatches {σ : Type} (impl : DenoiserImplMembers σ)
    (self : DenoiserImpl σ) (commonSettings : CommonSettings) (out : DispatchOut) :
    Result × DispatchOut × DenoiserImpl σ :=
  ((impl.GetComputeDispatches commonSettings out self.core).1,
    (impl.GetComputeDispatches commonSettings out self.core).2.1,
    { core := (impl.GetComputeDispatches commonSettings out self.core).2.2 })

/-- The function `nrd::CreateDenoiser`, lines 45 to 56.  `denoiser` is the
caller's handle variable before the call.  `denoiserImpl->Create` acts on the
object that `new` has just constructed at `denoiserImpl`, and the heap then
holds what it leaves. -/
def CreateDenoiser {σ : Type} (impl : DenoiserImplMembers σ)
    (denoiserCreationDesc : DenoiserCreationDesc) (denoiser : Nat)
    (heap : Heap (DenoiserImpl σ)) : CreateOutcome (DenoiserImpl σ) :=
  let placed := heap.place (DenoiserImpl.construct impl) HeapEvent.operatorNew
  let denoiserImpl := placed.1
  let created := DenoiserImpl.Create impl (DenoiserImpl.construct impl) denoiserCreationDesc
  let result := created.1
  let heap₂ := placed.2.store denoiserImpl created.2
  if result ≠ Result.SUCCESS then
    { result := result
      denoiserCreationDesc := denoiserCreationDesc
      denoiser := denoiser
      heap := heap₂.release denoiserImpl (HeapEvent.operatorDelete denoiserImpl) }
  else
    { result := result
      denoiserCreationDesc := denoiserCreationDesc
      denoiser := denoiserImpl
      heap := heap₂ }

/-- The function `nrd::GetDenoiserDesc`, lines 58 to 61. -/
def GetDenoiserDesc {σ : Type} (impl : DenoiserImplMembers σ) (denoiser : DenoiserImpl σ) :
    DenoiserDesc :=
  DenoiserImpl.GetDesc impl denoiser

/-- The function `nrd::SetMethodSettings`, lines 63 to 66. -/
def SetMethodSettings {σ : Type} (impl : DenoiserImplMembers σ) (denoiser : DenoiserImpl σ)
    (method : Method) (methodSettings : MethodSettings) : Result × DenoiserImpl σ :=
  DenoiserImpl.SetMethodSettings impl denoiser method methodSettings

/-- The function `nrd::GetComputeDispatches`, lines 68 to 71. -/
def GetComputeDispatches {σ : Type} (impl : DenoiserImplMembers σ) (denoiser : DenoiserImpl σ)
    (commonSettings : CommonSettings) (out : DispatchOut) :
    Result × DispatchOut × DenoiserImpl σ :=
  DenoiserImpl.GetComputeDispatches impl denoiser commonSettings out

/-- The function `nrd::DestroyDenoiser`, lines 73 to 76, on the object at
address `denoiser`; `none` where the reference names no live object. -/
def DestroyDenoiser {σ : Type} (denoiser : Nat) (heap : Heap (DenoiserImpl σ)) :
    Option (Heap (DenoiserImpl σ)) :=
  match heap.load denoiser with
  | none => none
  | some _ => some (heap.release denoiser (HeapEvent.operatorDelete denoiser))

end v2020

/-! ## The implementation as the specification describes it -/

/-- Modelled from the spec: a Method Instance, "a configured instance of one
denoising method holding its own settings state"; `settings` is `none` until
the first settings push. -/
structure MethodInstance where
  method : Method
  identifier : Nat
  settings : Option MethodSettings
deriving DecidableEq, Repr

/-- Modelled from the spec: the state behind a Denoiser Facade, its set of
method instances in creation order. -/
structure CoreState where
  instances : List MethodInstance
deriving DecidableEq, Repr

/-- Modelled from the spec: `DenoiserImpl::Create`, which is not among the
sources: "requested methods must be in the supported set reported by the
library descriptor", else "Create returns Unsupported, no instance is
created"; otherwise one method instance per requested pair. -/
def specCreate (supported : List Method) (denoiserCreationDesc : DenoiserCreationDesc)
    (core : CoreState) : Result × CoreState :=
  if denoiserCreationDesc.requestedMethods.all
      (fun requested => decide (requested.method ∈ supported)) then
    (Result.SUCCESS,
      { instances := denoiserCreationDesc.requestedMethods.map
          (fun requested =>
            { method := requested.method, identifier := requested.identifier, settings := none }) })
  else
    (Result.UNSUPPORTED, core)

/-- Modelled from the spec: `DenoiserImpl::SetMethodSettings`, which is not
among the sources: it "validates the settings blob's declared size/shape
against the method's fixed schema; on mismatch fails with InvalidArgument and
leaves prior settings untouched (no partial update)".  `schema` gives each
method's fixed settings size. -/
def specSetMethodSettings (schema : Method → Nat) (method : Method)
    (methodSettings : MethodSettings) (core : CoreState) : Result × CoreState :=
  if methodSettings.declaredSize = schema method then
    (Result.SUCCESS,
      { instances := core.instances.map
          (fun inst =>
            if inst.method = method then { inst with settings := some methodSettings }
            else inst) })
  else
    (Result.INVALID_ARGUMENT, core)

/-- Modelled from the spec: the class `DenoiserImpl` as the specification
describes it, over a supported method set, the methods' settings sizes, and
the Dispatch Compiler and the requirements report, which the specification
leaves to the implementer. -/
def specImpl (supported : List Method) (schema : Method → Nat)
    (compile : CommonSettings → DispatchOut → CoreState → Result × DispatchOut × CoreState)
    (describe : CoreState → DenoiserDesc) : DenoiserImplMembers CoreState :=
  { construct := { instances := [] }
    Create := specCreate supported
    GetDesc := describe
    SetMethodSettings := specSetMethodSettings schema
    GetComputeDispatches := compile }

/-! ## Vocabulary of the statements and example inputs -/

/-- A looked-up name is a string that starts with the characters of `start`. -/
def beginsWith (start : String) : Option CString → Bool
  | some (some name) => name.data.take start.data.length == start.data
  | _ => false

/-- A looked-up name is a string whose last character is a space and that
holds no whitespace before it. -/
def endsInOneSpace : Option CString → Bool
  | some (some name) =>
      name.data.getLast? == some ' ' && name.data.dropLast.all (fun c => !c.isWhitespace)
  | _ => false

/-- A looked-up name is a string that holds no whitespace. -/
def hasNoWhitespace : Option CString → Bool
  | some (some name) => name.data.all (fun c => !c.isWhitespace)
  | _ => false

/-- A creation description requests a method outside a supported set. -/
def requestsUnsupported (supported : List Method) (denoiserCreationDesc : DenoiserCreationDesc) :
    Prop :=
  ∃ requested ∈ denoiserCreationDesc.requestedMethods, requested.method ∉ supported

/-- A heap on which nothing has been allocated yet. -/
def emptyHeap {Obj : Type} : Heap Obj :=
  { nextAddress := 0, objects := [], events := [] }

/-- A build of the 2022 library, version 3.0.0, without octahedral normals. -/
def exampleBuild : v2022.BuildConfig :=
  { VERSION_MAJOR := 3, VERSION_MINOR := 0, VERSION_BUILD := 0,
    NRD_USE_OCT_NORMAL_ENCODING := false }

/-- The implementation as specified, over the supported set the 2022 library
reports, with 16-byte settings for every method, a Dispatch Compiler that
emits one dispatch per method instance that has settings, and an empty
requirements report. -/
def exampleImpl : DenoiserImplMembers CoreState :=
  specImpl (v2022.GetLibraryDesc exampleBuild).supportedMethods (fun _ => 16)
    (fun _ _ core =>
      (Result.SUCCESS,
        { dispatchDescs :=
            (core.instances.filter (fun inst => inst.settings.isSome)).map
              (fun inst =>
                { pipelineIndex := inst.method, gridWidth := 240, gridHeight := 135,
                  resources := [], constantBufferData := [] })
          dispatchDescNum := (core.instances.filter (fun inst => inst.settings.isSome)).length },
        core))
    (fun _ => { transientPoolSize := 0, permanentPoolSize := 0 })

/-- A caller's allocator interface. -/
def userAllocator : MemoryAllocatorInterface :=
  { Allocate := AllocatorRoutine.user 1
    Reallocate := AllocatorRoutine.user 2
    Free := AllocatorRoutine.user 3
    userArg := 42 }

/-- A description that asks for the shadow denoiser at 1920 by 1080 and
supplies no allocator. -/
def shadowDesc : DenoiserCreationDesc :=
  { memoryAllocatorInterface := none
    requestedMethods := [{ method := v2022.Method.SIGMA_SHADOW, identifier := 0 }]
    width := 1920
    height := 1080 }

/-- The same request with the caller's own allocator. -/
def shadowDescUserAllocator : DenoiserCreationDesc :=
  { shadowDesc with memoryAllocatorInterface := some userAllocator }

/-- A description that asks for method ordinal 15, which the 2022 library
does not list, and supplies no allocator. -/
def unsupportedDesc : DenoiserCreationDesc :=
  { memoryAllocatorInterface := none
    requestedMethods := [{ method := 15, identifier := 0 }]
    width := 1920
    height := 1080 }

/-- A denoiser with one shadow method instance whose settings were pushed. -/
def configuredDenoiser : v2022.DenoiserImpl CoreState :=
  { m_StdAllocator := { m_Interface := some defaultMemoryAllocatorInterface }
    core := { instances :=
      [{ method := v2022.Method.SIGMA_SHADOW, identifier := 0,
         settings := some { declaredSize := 16, bytes := List.replicate 16 0 } }] } }

/-- A settings payload that declares 12 bytes. -/
def shortSettings : MethodSettings :=
  { declaredSize := 12, bytes := List.replicate 12 255 }

/-! ## Theorems -/

/-- The 2022 name table has exactly the 28 listed entries. -/
theorem g_NrdResourceTypeNames_length : v2022.g_NrdResourceTypeNames.length = 28 := by
  decide

/-- The implementation as specified answers `UNSUPPORTED` whenever a requested
method is outside its supported set. -/
theorem specCreate_unsupported (supported : List Method) (desc : DenoiserCreationDesc)
    (core : CoreState) (h : requestsUnsupported supported desc) :
    (specCreate supported desc core).1 = Result.UNSUPPORTED := by
  obtain ⟨requested, hmem, hnot⟩ := h
  have hall : ¬ (desc.requestedMethods.all
      (fun requested => decide (requested.method ∈ supported)) = true) := by
    intro hall
    rw [List.all_eq_true] at hall
    exact hnot (of_decide_eq_true (hall requested hmem))
  simp only [specCreate, if_neg hall]

/-- What the 2022 `CreateDenoiser` returns and leaves on the heap, by the
code of the implementation's `Create`. -/
theorem createDenoiser_outcome_2022 {σ : Type} (impl : DenoiserImplMembers σ)
    (desc : DenoiserCreationDesc) (denoiser : Nat) (heap : Heap (v2022.DenoiserImpl σ)) :
    (v2022.CreateDenoiser impl desc denoiser heap).result
        = (impl.Create (v2022.modifiedDenoiserCreationDesc desc) impl.construct).1
      ∧ ((v2022.CreateDenoiser impl desc denoiser heap).result = Result.SUCCESS →
          (v2022.CreateDenoiser impl desc denoiser heap).denoiser = heap.nextAddress
          ∧ (v2022.CreateDenoiser impl desc denoiser heap).heap.load heap.nextAddress
              = some { m_StdAllocator := v2022.memoryAllocator desc,
                       core := (impl.Create (v2022.modifiedDenoiserCreationDesc desc)
                                  impl.construct).2 }
          ∧ (v2022.CreateDenoiser impl desc denoiser heap).heap.events
              = heap.events ++ [HeapEvent.allocate (v2022.memoryAllocator desc) heap.nextAddress])
      ∧ ((v2022.CreateDenoiser impl desc denoiser heap).result ≠ Result.SUCCESS →
          (v2022.CreateDenoiser impl desc denoiser heap).denoiser = denoiser
          ∧ (v2022.CreateDenoiser impl desc denoiser heap).heap.objects = heap.objects
          ∧ (v2022.CreateDenoiser impl desc denoiser heap).heap.events
              = heap.events ++
                [HeapEvent.allocate (v2022.memoryAllocator desc) heap.nextAddress,
                  HeapEvent.deallocate (v2022.memoryAllocator desc) heap.nextAddress]) := by
  by_cases h : (impl.Create (v2022.modifiedDenoiserCreationDesc desc) impl.construct).1
      = Result.SUCCESS
  · simp [v2022.CreateDenoiser, v2022.DenoiserImpl.Create, v2022.DenoiserImpl.construct,
      v2022.Allocate, v2022.Deallocate,
      Heap.place, Heap.store, Heap.release, Heap.load, storeAt, h]
  · simp [v2022.CreateDenoiser, v2022.DenoiserImpl.Create, v2022.DenoiserImpl.construct,
      v2022.Allocate, v2022.Deallocate,
      Heap.place, Heap.store, Heap.release, Heap.load, storeAt, h]

/-- What the 2020 `CreateDenoiser` returns and leaves on the heap, by the
code of the implementation's `Create`. -/
theorem createDenoiser_outcome_2020 {σ : Type} (impl : DenoiserImplMembers σ)
    (desc : DenoiserCreationDesc) (denoiser : Nat) (heap' : Heap (v2020.DenoiserImpl σ)) :
    (v2020.CreateDenoiser impl desc denoiser heap').result
        = (impl.Create desc impl.construct).1
      ∧ ((v2020.CreateDenoiser impl desc denoiser heap').result = Result.SUCCESS →
          (v2020.CreateDenoiser impl desc denoiser heap').denoiser = heap'.nextAddress
          ∧ (v2020.CreateDenoiser impl desc denoiser heap').heap.load heap'.nextAddress
              = some { core := (impl.Create desc impl.construct).2 }
          ∧ (v2020.CreateDenoiser impl desc denoiser heap').heap.events
              = heap'.events ++ [HeapEvent.operatorNew heap'.nextAddress])
      ∧ ((v2020.CreateDenoiser impl desc denoiser heap').result ≠ Result.SUCCESS →
          (v2020.CreateDenoiser impl desc denoiser heap').denoiser = denoiser
          ∧ (v2020.CreateDenoiser impl desc denoiser heap').heap.objects = heap'.objects
          ∧ (v2020.CreateDenoiser impl desc denoiser heap').heap.events
              = heap'.events ++
                [HeapEvent.operatorNew heap'.nextAddress,
                  HeapEvent.operatorDelete heap'.nextAddress]) := by
  by_cases h : (impl.Create desc impl.construct).1 = Result.SUCCESS
  · simp [v2020.CreateDenoiser, v2020.DenoiserImpl.Create, v2020.DenoiserImpl.construct,
      Heap.place, Heap.store, Heap.release, Heap.load, storeAt, h]
  · simp [v2020.CreateDenoiser, v2020.DenoiserImpl.Create, v2020.DenoiserImpl.construct,
      Heap.place, Heap.store, Heap.release, Heap.load, storeAt, h]

/-- C1: for every creation description, `CreateDenoiser` returns exactly the
code of the implementation's `Create`; on `SUCCESS` the caller's handle is set
to the new instance, which stays live; on any other code the instance that
was just allocated is released again before returning (the live objects are
those from before the call, the allocation is followed by its release) and
the caller's handle is unchanged.  First the 2022 wrapper, then the 2020
wrapper. -/
theorem createDenoiser_result_handle_release {σ : Type} (impl : DenoiserImplMembers σ)
    (desc : DenoiserCreationDesc) (denoiser : Nat)
    (heap : Heap (v2022.DenoiserImpl σ)) (heap' : Heap (v2020.DenoiserImpl σ)) :
    ((v2022.CreateDenoiser impl desc denoiser heap).result
        = (impl.Create (v2022.modifiedDenoiserCreationDesc desc) impl.construct).1
      ∧ ((v2022.CreateDenoiser impl desc denoiser heap).result = Result.SUCCESS →
          (v2022.CreateDenoiser impl desc denoiser heap).denoiser = heap.nextAddress
          ∧ (v2022.CreateDenoiser impl desc denoiser heap).heap.load heap.nextAddress
              = some { m_StdAllocator := v2022.memoryAllocator desc,
                       core := (impl.Create (v2022.modifiedDenoiserCreationDesc desc)
                                  impl.construct).2 }
          ∧ (v2022.CreateDenoiser impl desc denoiser heap).heap.events
              = heap.events ++ [HeapEvent.allocate (v2022.memoryAllocator desc) heap.nextAddress])
      ∧ ((v2022.CreateDenoiser impl desc denoiser heap).result ≠ Result.SUCCESS →
          (v2022.CreateDenoiser impl desc denoiser heap).denoiser = denoiser
          ∧ (v2022.CreateDenoiser impl desc denoiser heap).heap.objects = heap.objects
          ∧ (v2022.CreateDenoiser impl desc denoiser heap).heap.events
              = heap.events ++
                [HeapEvent.allocate (v2022.memoryAllocator desc) heap.nextAddress,
                  HeapEvent.deallocate (v2022.memoryAllocator desc) heap.nextAddress]))
    ∧ ((v2020.CreateDenoiser impl desc denoiser heap').result
        = (impl.Create desc impl.construct).1
      ∧ ((v2020.CreateDenoiser impl desc denoiser heap').result = Result.SUCCESS →
          (v2020.CreateDenoiser impl desc denoiser heap').denoiser = heap'.nextAddress
          ∧ (v2020.CreateDenoiser impl desc denoiser heap').heap.load heap'.nextAddress
              = some { core := (impl.Create desc impl.construct).2 }
          ∧ (v2020.CreateDenoiser impl desc denoiser heap').heap.events
              = heap'.events ++ [HeapEvent.operatorNew heap'.nextAddress])
      ∧ ((v2020.CreateDenoiser impl desc denoiser heap').result ≠ Result.SUCCESS →
          (v2020.CreateDenoiser impl desc denoiser heap').denoiser = denoiser
          ∧ (v2020.CreateDenoiser impl desc denoiser heap').heap.objects = heap'.objects
          ∧ (v2020.CreateDenoiser impl desc denoiser heap').heap.events
              = heap'.events ++
                [HeapEvent.operatorNew heap'.nextAddress,
                  HeapEvent.operatorDelete heap'.nextAddress])) :=
  ⟨createDenoiser_outcome_2022 impl desc denoiser heap,
    createDenoiser_outcome_2020 impl desc denoiser heap'⟩

/-- C1 at concrete inputs: a supported request succeeds in the 2022 wrapper
and the handle becomes the new address 0; an unsupported request fails in the
2020 wrapper and the handle keeps its old value 7, with the heap unwound. -/
theorem createDenoiser_result_handle_release_witness :
    ((v2022.CreateDenoiser exampleImpl shadowDesc 7 emptyHeap).result = Result.SUCCESS
      ∧ (v2022.CreateDenoiser exampleImpl shadowDesc 7 emptyHeap).denoiser = 0)
    ∧ ((v2020.CreateDenoiser exampleImpl unsupportedDesc 7 emptyHeap).result ≠ Result.SUCCESS
      ∧ (v2020.CreateDenoiser exampleImpl unsupportedDesc 7 emptyHeap).denoiser = 7
      ∧ (v2020.CreateDenoiser exampleImpl unsupportedDesc 7 emptyHeap).heap.objects = []
      ∧ (v2020.CreateDenoiser exampleImpl unsupportedDesc 7 emptyHeap).heap.events
          = [HeapEvent.operatorNew 0, HeapEvent.operatorDelete 0]) :=
  ⟨⟨by decide,
      ((createDenoiser_result_handle_release exampleImpl shadowDesc 7 emptyHeap
        emptyHeap).1.2.1 (by decide)).1⟩,
    ⟨by decide,
      (createDenoiser_result_handle_release exampleImpl unsupportedDesc 7 emptyHeap
        emptyHeap).2.2.2 (by decide)⟩⟩

/-- C2, as stated, fails: ordinal 28 is out of range, the lookup has no
defined result there and in particular does not return an "unknown" sentinel,
and no entry of the table is such a sentinel. -/
theorem getResourceTypeString_out_of_range_no_sentinel :
    v2022.ResourceType.MAX_NUM ≤ 28
    ∧ v2022.GetResourceTypeString 28 = none
    ∧ v2022.GetResourceTypeString 28 ≠ some (some "unknown")
    ∧ some "unknown" ∉ v2022.g_NrdResourceTypeNames := by
  decide

/-- C2 (amended): for every in-range ordinal `GetResourceTypeString` returns
that ordinal's entry of the name table; the lookup is an unchecked subscript,
so for an ordinal at or above `ResourceType::MAX_NUM` it has no defined
result (and no sentinel name). -/
theorem getResourceTypeString_unchecked_lookup (resourceType : ResourceType) :
    (resourceType < v2022.ResourceType.MAX_NUM →
        ∃ h : resourceType < v2022.g_NrdResourceTypeNames.length,
          v2022.GetResourceTypeString resourceType
            = some (v2022.g_NrdResourceTypeNames.get ⟨resourceType, h⟩))
    ∧ (v2022.ResourceType.MAX_NUM ≤ resourceType →
        v2022.GetResourceTypeString resourceType = none) := by
  refine ⟨?_, ?_⟩
  · intro h
    have hlen : resourceType < v2022.g_NrdResourceTypeNames.length := by
      rw [g_NrdResourceTypeNames_length]
      exact h
    exact ⟨hlen, by simp [v2022.GetResourceTypeString, List.getElem?_eq_getElem hlen]⟩
  · intro h
    have hlen : v2022.g_NrdResourceTypeNames.length ≤ resourceType := by
      rw [g_NrdResourceTypeNames_length]
      exact h
    simp [v2022.GetResourceTypeString, List.getElem?_eq_none hlen]

/-- C2 (amended) at concrete inputs: ordinal 12 yields entry 12 of the
table, the name of `IN_SHADOWDATA`; ordinal 40 yields no defined result. -/
theorem getResourceTypeString_unchecked_lookup_witness :
    (∃ h : 12 < v2022.g_NrdResourceTypeNames.length,
        v2022.GetResourceTypeString 12
          = some (v2022.g_NrdResourceTypeNames.get ⟨12, h⟩))
    ∧ v2022.GetResourceTypeString 12 = some (some "IN_SHADOWDATA ")
    ∧ v2022.GetResourceTypeString 40 = none :=
  ⟨(getResourceTypeString_unchecked_lookup 12).1 (by decide), by decide,
    (getResourceTypeString_unchecked_lookup 40).2 (by decide)⟩

/-- C3: for every `ResourceType` ordinal below `ResourceType::MAX_NUM`,
`GetResourceTypeString` returns a non-null, non-empty name, and two different
ordinals below `MAX_NUM` never get the same name. -/
theorem resource_names_present_and_distinct :
    (∀ r, r < v2022.ResourceType.MAX_NUM →
        ∃ name, v2022.GetResourceTypeString r = some (some name) ∧ name ≠ "")
    ∧ (∀ r₁ r₂, r₁ < v2022.ResourceType.MAX_NUM → r₂ < v2022.ResourceType.MAX_NUM →
        r₁ ≠ r₂ →
        v2022.GetResourceTypeString r₁ ≠ v2022.GetResourceTypeString r₂) := by
  refine ⟨?_, ?_⟩
  · intro r hr
    have hr' : r < 28 := hr
    interval_cases r <;> exact ⟨_, rfl, by decide⟩
  · have key : ∀ r₁, r₁ < v2022.ResourceType.MAX_NUM →
        ∀ r₂, r₂ < v2022.ResourceType.MAX_NUM →
        v2022.GetResourceTypeString r₁ = v2022.GetResourceTypeString r₂ → r₁ = r₂ := by
      decide
    intro r₁ r₂ h₁ h₂ hne heq
    exact hne (key r₁ h₁ r₂ h₂ heq)

/-- C3 at concrete inputs: ordinal 3 has a non-empty name, and ordinals 3
and 17 (the diffuse radiance input and output) have different names. -/
theorem resource_names_present_and_distinct_witness :
    (∃ name, v2022.GetResourceTypeString 3 = some (some name) ∧ name ≠ "")
    ∧ v2022.GetResourceTypeString 3 ≠ v2022.GetResourceTypeString 17 :=
  ⟨resource_names_present_and_distinct.1 3 (by decide),
    resource_names_present_and_distinct.2 3 17 (by decide) (by decide) (by decide)⟩

/-- C4: the method count `GetLibraryDesc` reports equals the number of entries
of the supported-methods table, the table is exactly the explicitly listed
methods (no value-initialised filler follows them), and no method occurs
twice: 15 distinct methods in the 2022 wrapper, 3 in the 2020 wrapper. -/
theorem supported_methods_listed_once (cfg : v2022.BuildConfig) (cfg' : v2020.BuildConfig) :
    ((v2022.GetLibraryDesc cfg).supportedMethodNum
        = (v2022.GetLibraryDesc cfg).supportedMethods.length
      ∧ (v2022.GetLibraryDesc cfg).supportedMethods = v2022.g_NrdSupportedMethods_inits
      ∧ (v2022.GetLibraryDesc cfg).supportedMethods.Nodup
      ∧ (v2022.GetLibraryDesc cfg).supportedMethodNum = 15)
    ∧ ((v2020.GetLibraryDesc cfg').supportedMethodNum
        = (v2020.GetLibraryDesc cfg').supportedMethods.length
      ∧ (v2020.GetLibraryDesc cfg').supportedMethods = v2020.g_NrdSupportedMethods_inits
      ∧ (v2020.GetLibraryDesc cfg').supportedMethods.Nodup
      ∧ (v2020.GetLibraryDesc cfg').supportedMethodNum = 3) := by
  refine ⟨⟨?_, ?_, ?_, ?_⟩, ⟨?_, ?_, ?_, ?_⟩⟩ <;>
    simp only [v2022.GetLibraryDesc, v2022.g_NrdLibraryDesc, v2020.GetLibraryDesc,
      v2020.g_NrdLibraryDesc] <;> decide

/-- C5, as stated, fails: the description requests ordinal 15, which is not
in the supported set `GetLibraryDesc` reports, the implementation answers
`UNSUPPORTED`, and yet `CreateDenoiser` has performed an allocation: the heap
records an allocation followed by its release, where before the call it
recorded nothing. -/
theorem createDenoiser_unsupported_still_allocates :
    requestsUnsupported (v2022.GetLibraryDesc exampleBuild).supportedMethods unsupportedDesc
    ∧ (v2022.CreateDenoiser exampleImpl unsupportedDesc 7 emptyHeap).result = Result.UNSUPPORTED
    ∧ (v2022.CreateDenoiser exampleImpl unsupportedDesc 7 emptyHeap).heap.events
        = [HeapEvent.allocate { m_Interface := some defaultMemoryAllocatorInterface } 0,
            HeapEvent.deallocate { m_Interface := some defaultMemoryAllocatorInterface } 0]
    ∧ (v2022.CreateDenoiser exampleImpl unsupportedDesc 7 emptyHeap).heap.events
        ≠ (emptyHeap : Heap (v2022.DenoiserImpl CoreState)).events := by
  refine ⟨⟨{ method := 15, identifier := 0 }, by decide, by decide⟩, ?_, ?_, ?_⟩ <;> decide

/-- C5 (amended): `CreateDenoiser` does not consult the supported set itself;
it allocates the instance first and leaves the check to the implementation.
For every creation description that requests a method outside the supported
set reported by `GetLibraryDesc`, given that the implementation's `Create`
answers `UNSUPPORTED` for such a description, `CreateDenoiser` returns
`UNSUPPORTED`, leaves the caller's handle unchanged and leaves no instance
behind: the one allocation it performed is followed by its release and the
live objects are those from before the call. -/
theorem createDenoiser_unsupported_unwinds {σ : Type} (impl : DenoiserImplMembers σ)
    (cfg : v2022.BuildConfig) (desc : DenoiserCreationDesc) (denoiser : Nat)
    (heap : Heap (v2022.DenoiserImpl σ))
    (hrequest : requestsUnsupported (v2022.GetLibraryDesc cfg).supportedMethods desc)
    (hcreate : ∀ d core, requestsUnsupported (v2022.GetLibraryDesc cfg).supportedMethods d →
      (impl.Create d core).1 = Result.UNSUPPORTED) :
    (v2022.CreateDenoiser impl desc denoiser heap).result = Result.UNSUPPORTED
    ∧ (v2022.CreateDenoiser impl desc denoiser heap).denoiser = denoiser
    ∧ (v2022.CreateDenoiser impl desc denoiser heap).heap.objects = heap.objects
    ∧ (v2022.CreateDenoiser impl desc denoiser heap).heap.events
        = heap.events ++
          [HeapEvent.allocate (v2022.memoryAllocator desc) heap.nextAddress,
            HeapEvent.deallocate (v2022.memoryAllocator desc) heap.nextAddress] := by
  have h : (impl.Create (v2022.modifiedDenoiserCreationDesc desc) impl.construct).1
      = Result.UNSUPPORTED :=
    hcreate _ _ hrequest
  simp [v2022.CreateDenoiser, v2022.DenoiserImpl.Create, v2022.DenoiserImpl.construct,
      v2022.Allocate, v2022.Deallocate,
    Heap.place, Heap.store, Heap.release, storeAt, h]

/-- C5 (amended) at a concrete input: the request for ordinal 15, with the
implementation as specified and the handle holding 7 before the call. -/
theorem createDenoiser_unsupported_unwinds_witness :
    (v2022.CreateDenoiser exampleImpl unsupportedDesc 7 emptyHeap).result = Result.UNSUPPORTED
    ∧ (v2022.CreateDenoiser exampleImpl unsupportedDesc 7 emptyHeap).denoiser = 7
    ∧ (v2022.CreateDenoiser exampleImpl unsupportedDesc 7 emptyHeap).heap.objects
        = (emptyHeap : Heap (v2022.DenoiserImpl CoreState)).objects
    ∧ (v2022.CreateDenoiser exampleImpl unsupportedDesc 7 emptyHeap).heap.events
        = (emptyHeap : Heap (v2022.DenoiserImpl CoreState)).events ++
          [HeapEvent.allocate (v2022.memoryAllocator unsupportedDesc)
              (emptyHeap : Heap (v2022.DenoiserImpl CoreState)).nextAddress,
            HeapEvent.deallocate (v2022.memoryAllocator unsupportedDesc)
              (emptyHeap : Heap (v2022.DenoiserImpl CoreState)).nextAddress] :=
  createDenoiser_unsupported_unwinds exampleImpl exampleBuild unsupportedDesc 7 emptyHeap
    ⟨{ method := 15, identifier := 0 }, by decide, by decide⟩
    (fun d core h => specCreate_unsupported _ d core h)

/-- C6: for every denoiser and method, `SetMethodSettings` called with a
settings payload whose declared size is not the method's settings size
returns `INVALID_ARGUMENT` and leaves the denoiser as it was, so that a
subsequent `GetComputeDispatches` produces what it would have produced before
the failed call. -/
theorem setMethodSettings_wrong_size_rejected (supported : List Method) (schema : Method → Nat)
    (compile : CommonSettings → DispatchOut → CoreState → Result × DispatchOut × CoreState)
    (describe : CoreState → DenoiserDesc) (denoiser : v2022.DenoiserImpl CoreState)
    (method : Method) (methodSettings : MethodSettings) (commonSettings : CommonSettings)
    (out : DispatchOut) (hsize : methodSettings.declaredSize ≠ schema method) :
    (v2022.SetMethodSettings (specImpl supported schema compile describe) denoiser method
        methodSettings).1 = Result.INVALID_ARGUMENT
    ∧ (v2022.SetMethodSettings (specImpl supported schema compile describe) denoiser method
        methodSettings).2 = denoiser
    ∧ v2022.GetComputeDispatches (specImpl supported schema compile describe)
        (v2022.SetMethodSettings (specImpl supported schema compile describe) denoiser method
          methodSettings).2 commonSettings out
      = v2022.GetComputeDispatches (specImpl supported schema compile describe) denoiser
          commonSettings out := by
  have hstate : (v2022.SetMethodSettings (specImpl supported schema compile describe) denoiser
      method methodSettings).2 = denoiser := by
    simp [v2022.SetMethodSettings, v2022.DenoiserImpl.SetMethodSettings, specImpl,
      specSetMethodSettings, hsize]
  refine ⟨?_, hstate, ?_⟩
  · simp [v2022.SetMethodSettings, v2022.DenoiserImpl.SetMethodSettings, specImpl,
      specSetMethodSettings, hsize]
  · rw [hstate]

/-- C6 at a concrete input: a 12-byte payload for the shadow method, whose
settings have 16 bytes, on a configured denoiser. -/
theorem setMethodSettings_wrong_size_rejected_witness :
    (v2022.SetMethodSettings exampleImpl configuredDenoiser v2022.Method.SIGMA_SHADOW
        shortSettings).1 = Result.INVALID_ARGUMENT
    ∧ (v2022.SetMethodSettings exampleImpl configuredDenoiser v2022.Method.SIGMA_SHADOW
        shortSettings).2 = configuredDenoiser
    ∧ v2022.GetComputeDispatches exampleImpl
        (v2022.SetMethodSettings exampleImpl configuredDenoiser v2022.Method.SIGMA_SHADOW
          shortSettings).2 { frameIndex := 0, reset := true }
          { dispatchDescs := [], dispatchDescNum := 0 }
      = v2022.GetComputeDispatches exampleImpl configuredDenoiser
          { frameIndex := 0, reset := true } { dispatchDescs := [], dispatchDescNum := 0 } :=
  setMethodSettings_wrong_size_rejected _ _ _ _ configuredDenoiser v2022.Method.SIGMA_SHADOW
    shortSettings { frameIndex := 0, reset := true } { dispatchDescs := [], dispatchDescNum := 0 }
    (by decide)

/-- C7: `CreateDenoiser` of the 2022 wrapper never modifies the caller's
creation description.  When the description supplies no allocator, the
private copy is completed with the default allocator, and it is that
completed copy whose interface allocates (and releases) the instance and is
stored in it, and that `Create` receives.  When the description supplies an
allocator, that allocator is the one used and `Create` receives an equal
copy of the description. -/
theorem createDenoiser_allocator_choice {σ : Type} (impl : DenoiserImplMembers σ)
    (desc : DenoiserCreationDesc) (denoiser : Nat) (heap : Heap (v2022.DenoiserImpl σ)) :
    (v2022.CreateDenoiser impl desc denoiser heap).denoiserCreationDesc = desc
    ∧ (desc.memoryAllocatorInterface = none →
        (v2022.CreateDenoiser impl desc denoiser heap).result
          = (impl.Create
              { desc with memoryAllocatorInterface := some defaultMemoryAllocatorInterface }
              impl.construct).1
        ∧ (v2022.CreateDenoiser impl desc denoiser heap).heap.events
          = heap.events ++
              HeapEvent.allocate { m_Interface := some defaultMemoryAllocatorInterface }
                  heap.nextAddress ::
                (if (v2022.CreateDenoiser impl desc denoiser heap).result = Result.SUCCESS then []
                  else [HeapEvent.deallocate
                    { m_Interface := some defaultMemoryAllocatorInterface } heap.nextAddress])
        ∧ ((v2022.CreateDenoiser impl desc denoiser heap).result = Result.SUCCESS →
            (v2022.CreateDenoiser impl desc denoiser heap).heap.load
                (v2022.CreateDenoiser impl desc denoiser heap).denoiser
              = some
                  { m_StdAllocator := { m_Interface := some defaultMemoryAllocatorInterface },
                    core := (impl.Create
                      { desc with memoryAllocatorInterface := some defaultMemoryAllocatorInterface }
                      impl.construct).2 }))
    ∧ (∀ supplied, desc.memoryAllocatorInterface = some supplied →
        (v2022.CreateDenoiser impl desc denoiser heap).result
          = (impl.Create desc impl.construct).1
        ∧ (v2022.CreateDenoiser impl desc denoiser heap).heap.events
          = heap.events ++
              HeapEvent.allocate { m_Interface := some supplied } heap.nextAddress ::
                (if (v2022.CreateDenoiser impl desc denoiser heap).result = Result.SUCCESS then []
                  else [HeapEvent.deallocate { m_Interface := some supplied } heap.nextAddress])
        ∧ ((v2022.CreateDenoiser impl desc denoiser heap).result = Result.SUCCESS →
            (v2022.CreateDenoiser impl desc denoiser heap).heap.load
                (v2022.CreateDenoiser impl desc denoiser heap).denoiser
              = some
                  { m_StdAllocator := { m_Interface := some supplied },
                    core := (impl.Create desc impl.construct).2 })) := by
  have hdesc : (v2022.CreateDenoiser impl desc denoiser heap).denoiserCreationDesc = desc := by
    unfold v2022.CreateDenoiser
    simp only []
    split <;> rfl
  obtain ⟨hres, hok, hfail⟩ := createDenoiser_outcome_2022 impl desc denoiser heap
  refine ⟨hdesc, ?_, ?_⟩
  · intro hnone
    have hmod : v2022.modifiedDenoiserCreationDesc desc
        = { desc with memoryAllocatorInterface := some defaultMemoryAllocatorInterface } := by
      simp [v2022.modifiedDenoiserCreationDesc, CheckAndSetDefaultAllocator, hnone]
    have halloc : v2022.memoryAllocator desc
        = { m_Interface := some defaultMemoryAllocatorInterface } := by
      simp [v2022.memoryAllocator, hmod]
    rw [hmod] at hres hok
    rw [halloc] at hok hfail
    refine ⟨hres, ?_, ?_⟩
    · by_cases h : (v2022.CreateDenoiser impl desc denoiser heap).result = Result.SUCCESS
      · simp [h, (hok h).2.2]
      · simp [h, (hfail h).2.2]
    · intro h
      rw [(hok h).1]
      exact (hok h).2.1
  · intro supplied hsome
    have hmod : v2022.modifiedDenoiserCreationDesc desc = desc := by
      cases desc
      simp_all [v2022.modifiedDenoiserCreationDesc, CheckAndSetDefaultAllocator]
    have halloc : v2022.memoryAllocator desc = { m_Interface := some supplied } := by
      simp [v2022.memoryAllocator, hmod, hsome]
    rw [hmod] at hres hok
    rw [halloc] at hok hfail
    refine ⟨hres, ?_, ?_⟩
    · by_cases h : (v2022.CreateDenoiser impl desc denoiser heap).result = Result.SUCCESS
      · simp [h, (hok h).2.2]
      · simp [h, (hfail h).2.2]
    · intro h
      rw [(hok h).1]
      exact (hok h).2.1

/-- C7 at concrete inputs: without an allocator the instance is allocated
through the default interface, with the caller's allocator through that one;
both requests succeed. -/
theorem createDenoiser_allocator_choice_witness :
    (v2022.CreateDenoiser exampleImpl shadowDesc 7 emptyHeap).heap.events
        = [HeapEvent.allocate { m_Interface := some defaultMemoryAllocatorInterface } 0]
    ∧ (v2022.CreateDenoiser exampleImpl shadowDescUserAllocator 7 emptyHeap).heap.events
        = [HeapEvent.allocate { m_Interface := some userAllocator } 0] :=
  ⟨((createDenoiser_allocator_choice exampleImpl shadowDesc 7 emptyHeap).2.1 rfl).2.1.trans
      (by decide),
    ((createDenoiser_allocator_choice exampleImpl shadowDescUserAllocator 7 emptyHeap).2.2
      userAllocator rfl).2.1.trans (by decide)⟩

/-- C8: `DestroyDenoiser` always succeeds on a live denoiser and releases it
exactly once.  In the 2022 wrapper the release goes through the allocator
stored in the instance; for a denoiser that `CreateDenoiser` created this is
the allocator that allocated it, and after the call the live objects and the
recorded calls are those from before the creation plus the one allocation
and its one release.  In the 2020 wrapper the instance obtained by `new` is
released by one `delete`. -/
theorem destroyDenoiser_releases_once {σ : Type} (impl : DenoiserImplMembers σ)
    (desc : DenoiserCreationDesc) (denoiser : Nat)
    (heap : Heap (v2022.DenoiserImpl σ)) (heap' : Heap (v2020.DenoiserImpl σ))
    (later : Heap (v2022.DenoiserImpl σ)) (address : Nat) (object : v2022.DenoiserImpl σ) :
    (later.load address = some object →
        v2022.DestroyDenoiser address later
          = some (later.release address
              (HeapEvent.deallocate object.m_StdAllocator address)))
    ∧ ((v2022.CreateDenoiser impl desc denoiser heap).result = Result.SUCCESS →
        v2022.DestroyDenoiser (v2022.CreateDenoiser impl desc denoiser heap).denoiser
            (v2022.CreateDenoiser impl desc denoiser heap).heap
          = some
              { nextAddress := heap.nextAddress + 1
                objects := heap.objects
                events := heap.events ++
                  [HeapEvent.allocate (v2022.memoryAllocator desc) heap.nextAddress,
                    HeapEvent.deallocate (v2022.memoryAllocator desc) heap.nextAddress] })
    ∧ ((v2020.CreateDenoiser impl desc denoiser heap').result = Result.SUCCESS →
        v2020.DestroyDenoiser (v2020.CreateDenoiser impl desc denoiser heap').denoiser
            (v2020.CreateDenoiser impl desc denoiser heap').heap
          = some
              { nextAddress := heap'.nextAddress + 1
                objects := heap'.objects
                events := heap'.events ++
                  [HeapEvent.operatorNew heap'.nextAddress,
                    HeapEvent.operatorDelete heap'.nextAddress] }) := by
  refine ⟨?_, ?_, ?_⟩
  · intro h
    simp [v2022.DestroyDenoiser, h, v2022.Deallocate, v2022.DenoiserImpl.GetStdAllocator]
  · by_cases h : (impl.Create (v2022.modifiedDenoiserCreationDesc desc) impl.construct).1
        = Result.SUCCESS
    · simp [v2022.DestroyDenoiser, v2022.CreateDenoiser, v2022.DenoiserImpl.Create,
        v2022.DenoiserImpl.construct,
        v2022.Allocate, v2022.Deallocate, v2022.DenoiserImpl.GetStdAllocator,
        Heap.place, Heap.store, Heap.release, Heap.load, storeAt, h]
    · simp [v2022.CreateDenoiser, v2022.DenoiserImpl.Create, v2022.DenoiserImpl.construct, h]
  · by_cases h : (impl.Create desc impl.construct).1 = Result.SUCCESS
    · simp [v2020.DestroyDenoiser, v2020.CreateDenoiser, v2020.DenoiserImpl.Create,
        v2020.DenoiserImpl.construct,
        Heap.place, Heap.store, Heap.release, Heap.load, storeAt, h]
    · simp [v2020.CreateDenoiser, v2020.DenoiserImpl.Create, v2020.DenoiserImpl.construct, h]

/-- C8 at concrete inputs: a denoiser created with the caller's allocator is
released through that allocator; one created by the 2020 wrapper is deleted;
and a live configured denoiser is released through its stored allocator. -/
theorem destroyDenoiser_releases_once_witness :
    v2022.DestroyDenoiser 5
        { nextAddress := 6, objects := [(5, configuredDenoiser)], events := [] }
      = some
          { nextAddress := 6, objects := [],
            events := [HeapEvent.deallocate
              { m_Interface := some defaultMemoryAllocatorInterface } 5] }
    ∧ v2022.DestroyDenoiser
          (v2022.CreateDenoiser exampleImpl shadowDescUserAllocator 7 emptyHeap).denoiser
          (v2022.CreateDenoiser exampleImpl shadowDescUserAllocator 7 emptyHeap).heap
        = some
            { nextAddress := 1, objects := [],
              events := [HeapEvent.allocate { m_Interface := some userAllocator } 0,
                HeapEvent.deallocate { m_Interface := some userAllocator } 0] }
    ∧ v2020.DestroyDenoiser
          (v2020.CreateDenoiser exampleImpl shadowDesc 7 emptyHeap).denoiser
          (v2020.CreateDenoiser exampleImpl shadowDesc 7 emptyHeap).heap
        = some
            { nextAddress := 1, objects := [],
              events := [HeapEvent.operatorNew 0, HeapEvent.operatorDelete 0] } :=
  ⟨(destroyDenoiser_releases_once exampleImpl shadowDesc 7 emptyHeap emptyHeap
      { nextAddress := 6, objects := [(5, configuredDenoiser)], events := [] } 5
      configuredDenoiser).1 rfl,
    (destroyDenoiser_releases_once exampleImpl shadowDescUserAllocator 7 emptyHeap emptyHeap
      emptyHeap 0 configuredDenoiser).2.1 (by decide),
    (destroyDenoiser_releases_once exampleImpl shadowDesc 7 emptyHeap emptyHeap
      emptyHeap 0 configuredDenoiser).2.2 (by decide)⟩

/-- C9: the per-frame entry points only forward.  For every denoiser and
arguments, `GetDenoiserDesc`, `SetMethodSettings` and `GetComputeDispatches`
are the implementation's member call of the same name: they return what the
implementation's operation returns on the denoiser's state (code, dispatch
list and count), leave in the denoiser the state that operation leaves and
change nothing else (the stored allocator stays); and the 2020 and 2022
wrappers agree on all three. -/
theorem per_frame_entry_points_forward {σ : Type} (impl : DenoiserImplMembers σ)
    (allocator : StdAllocator) (core : σ) (method : Method) (methodSettings : MethodSettings)
    (commonSettings : CommonSettings) (out : DispatchOut) :
    (v2022.GetDenoiserDesc impl { m_StdAllocator := allocator, core := core }
        = v2022.DenoiserImpl.GetDesc impl { m_StdAllocator := allocator, core := core }
      ∧ v2022.SetMethodSettings impl { m_StdAllocator := allocator, core := core } method
          methodSettings
        = v2022.DenoiserImpl.SetMethodSettings impl { m_StdAllocator := allocator, core := core }
            method methodSettings
      ∧ v2022.GetComputeDispatches impl { m_StdAllocator := allocator, core := core }
          commonSettings out
        = v2022.DenoiserImpl.GetComputeDispatches impl
            { m_StdAllocator := allocator, core := core } commonSettings out)
    ∧ (v2022.GetDenoiserDesc impl { m_StdAllocator := allocator, core := core }
        = impl.GetDesc core
      ∧ v2022.SetMethodSettings impl { m_StdAllocator := allocator, core := core } method
          methodSettings
        = ((impl.SetMethodSettings method methodSettings core).1,
            { m_StdAllocator := allocator,
              core := (impl.SetMethodSettings method methodSettings core).2 })
      ∧ v2022.GetComputeDispatches impl { m_StdAllocator := allocator, core := core }
          commonSettings out
        = ((impl.GetComputeDispatches commonSettings out core).1,
            (impl.GetComputeDispatches commonSettings out core).2.1,
            { m_StdAllocator := allocator,
              core := (impl.GetComputeDispatches commonSettings out core).2.2 }))
    ∧ (v2020.GetDenoiserDesc impl { core := core } = impl.GetDesc core
      ∧ v2020.SetMethodSettings impl { core := core } method methodSettings
        = ((impl.SetMethodSettings method methodSettings core).1,
            { core := (impl.SetMethodSettings method methodSettings core).2 })
      ∧ v2020.GetComputeDispatches impl { core := core } commonSettings out
        = ((impl.GetComputeDispatches commonSettings out core).1,
            (impl.GetComputeDispatches commonSettings out core).2.1,
            { core := (impl.GetComputeDispatches commonSettings out core).2.2 }))
    ∧ (v2020.GetDenoiserDesc impl { core := core }
        = v2022.GetDenoiserDesc impl { m_StdAllocator := allocator, core := core }
      ∧ (v2020.SetMethodSettings impl { core := core } method methodSettings).1
        = (v2022.SetMethodSettings impl { m_StdAllocator := allocator, core := core } method
            methodSettings).1
      ∧ (v2020.SetMethodSettings impl { core := core } method methodSettings).2.core
        = (v2022.SetMethodSettings impl { m_StdAllocator := allocator, core := core } method
            methodSettings).2.core
      ∧ (v2020.GetComputeDispatches impl { core := core } commonSettings out).1
        = (v2022.GetComputeDispatches impl { m_StdAllocator := allocator, core := core }
            commonSettings out).1
      ∧ (v2020.GetComputeDispatches impl { core := core } commonSettings out).2.1
        = (v2022.GetComputeDispatches impl { m_StdAllocator := allocator, core := core }
            commonSettings out).2.1
      ∧ (v2020.GetComputeDispatches impl { core := core } commonSettings out).2.2.core
        = (v2022.GetComputeDispatches impl { m_StdAllocator := allocator, core := core }
            commonSettings out).2.2.core) := by
  refine ⟨⟨rfl, rfl, rfl⟩, ⟨rfl, rfl, rfl⟩, ⟨rfl, rfl, rfl⟩, ⟨rfl, rfl, rfl, rfl, rfl, rfl⟩⟩

/-- C10: the name table has 28 entries: ordinals 0 to 16 name inputs (their
names begin with "IN_"), ordinals 17 to 25 name outputs (their names begin
with "OUT_"), and the last two are "TRANSIENT_POOL" and "PERMANENT_POOL";
every input or output name ends in one space and holds no other whitespace,
and the two pool-marker names hold no whitespace at all. -/
theorem resource_name_table_layout :
    v2022.g_NrdResourceTypeNames.length = 28
    ∧ (∀ r, r < 17 → beginsWith "IN_" (v2022.GetResourceTypeString r) = true)
    ∧ (∀ r, 17 ≤ r → r < 26 → beginsWith "OUT_" (v2022.GetResourceTypeString r) = true)
    ∧ v2022.GetResourceTypeString 26 = some (some "TRANSIENT_POOL")
    ∧ v2022.GetResourceTypeString 27 = some (some "PERMANENT_POOL")
    ∧ (∀ r, r < 26 → endsInOneSpace (v2022.GetResourceTypeString r) = true)
    ∧ hasNoWhitespace (v2022.GetResourceTypeString 26) = true
    ∧ hasNoWhitespace (v2022.GetResourceTypeString 27) = true := by
  decide

/-- C10 at concrete inputs: ordinal 16 is the last input name, ordinal 17
the first output name, and ordinal 25 ends in one space. -/
theorem resource_name_table_layout_witness :
    beginsWith "IN_" (v2022.GetResourceTypeString 16) = true
    ∧ beginsWith "OUT_" (v2022.GetResourceTypeString 17) = true
    ∧ endsInOneSpace (v2022.GetResourceTypeString 25) = true :=
  ⟨resource_name_table_layout.2.1 16 (by decide),
    resource_name_table_layout.2.2.1 17 (by decide) (by decide),
    resource_name_table_layout.2.2.2.2.2.1 25 (by decide)⟩

end nrd
